import Mathlib

/-!
Verification development for the sales-forecast pipeline of `app.py`
(mini_app_tcc): a shallow embedding of the Record Normalizer, Series
Aggregator, Forecast Adapter and Result Formatter, with theorems checking
the design document's claims against the code.

Conventions of the embedding:
* calendar dates are triples of naturals (year, month, day);
* quantities are integers, raw engine outputs are rationals;
* pandas/Prophet collaborators are modelled at the granularity the code
  uses them: `groupby(...).sum()` as sort-distinct-and-sum,
  `Series.round()` as numpy round-half-to-even,
  `make_future_dataframe(periods, freq="MS")` as the month-start
  continuation of the history index, `DataFrame.to_csv(index=False)` as
  newline-joined comma-joined cells.
-/

namespace MiniApp

/-- A calendar date as carried by the `data_ref` column after
`pd.to_datetime` (app.py line 68): year, month, day. -/
structure Date where
  y : Nat
  m : Nat
  d : Nat
deriving DecidableEq

/-- Strict lexicographic order on dates (year, then month, then day):
the order pandas uses to sort `data_ref` group keys. -/
def Date.ltb (a b : Date) : Bool :=
  a.y < b.y || (a.y == b.y && (a.m < b.m || (a.m == b.m && a.d < b.d)))

/-- Reflexive closure of `Date.ltb`. -/
def Date.leb (a b : Date) : Bool :=
  Date.ltb a b || a == b

theorem Date.ltb_iff (a b : Date) :
    Date.ltb a b = true ↔
      a.y < b.y ∨ (a.y = b.y ∧ (a.m < b.m ∨ (a.m = b.m ∧ a.d < b.d))) := by
  simp [Date.ltb, Bool.or_eq_true, Bool.and_eq_true, decide_eq_true_iff, beq_iff_eq]

theorem Date.leb_iff (a b : Date) :
    Date.leb a b = true ↔ Date.ltb a b = true ∨ a = b := by
  simp [Date.leb, Bool.or_eq_true, beq_iff_eq]

/-- The sort relation on dates, as a `Prop`. -/
def dle (a b : Date) : Prop := Date.leb a b = true

instance : DecidableRel dle := fun a b => instDecidableEqBool (Date.leb a b) true

theorem dle_total (a b : Date) : dle a b ∨ dle b a := by
  rcases a with ⟨ay, am, ad⟩; rcases b with ⟨by', bm, bd⟩
  simp only [dle, Date.leb_iff, Date.ltb_iff, Date.mk.injEq]
  omega

theorem dle_trans {a b c : Date} (h1 : dle a b) (h2 : dle b c) : dle a c := by
  rcases a with ⟨ay, am, ad⟩; rcases b with ⟨by', bm, bd⟩; rcases c with ⟨cy, cm, cd⟩
  simp only [dle, Date.leb_iff, Date.ltb_iff, Date.mk.injEq] at h1 h2 ⊢
  omega

instance : IsTotal Date dle := ⟨dle_total⟩

instance : IsTrans Date dle := ⟨fun _ _ _ => dle_trans⟩

/-- Strict part of the sort order: `≤` together with `≠`. -/
def dlt (a b : Date) : Prop := dle a b ∧ a ≠ b

theorem dlt_iff_ltb {a b : Date} : dlt a b ↔ Date.ltb a b = true := by
  rcases a with ⟨ay, am, ad⟩; rcases b with ⟨by', bm, bd⟩
  simp only [dlt, dle, Date.leb_iff, Date.ltb_iff, Date.mk.injEq, ne_eq, not_and]
  omega

/-- One typed record of the uploaded dataset: reference date, product
identifier, quantity (columns `data_ref`, `produto`, `quantidade`). -/
structure Record where
  data_ref : Date
  produto : String
  quantidade : Int
deriving DecidableEq

/-- Embedding of `df[df["produto"] == produto_selecionado]` (app.py line 100). -/
def filtProd (rs : List Record) (pid : String) : List Record :=
  rs.filter (fun r => r.produto == pid)

/-- Sum of the `quantidade` column of the records whose `data_ref` equals
`dt` — one group of the pandas `groupby("data_ref")["quantidade"].sum()`. -/
def sumAt (rs : List Record) (dt : Date) : Int :=
  ((rs.filter (fun r => r.data_ref == dt)).map Record.quantidade).sum

/-- The distinct `data_ref` values of a record list, sorted ascending:
the group keys of `groupby("data_ref")` (pandas sorts group keys). -/
def sortedDates (rs : List Record) : List Date :=
  List.insertionSort dle (rs.map Record.data_ref).dedup

/-- Embedding of `serie` (app.py lines 102–107): filter to the selected product, group
by the exact `data_ref` value, sum `quantidade`, keys ascending.  Each
output pair is one `(ds, y)` row of the dataframe handed to Prophet. -/
def serie (rs : List Record) (pid : String) : List (Date × Int) :=
  (sortedDates (filtProd rs pid)).map (fun dt => (dt, sumAt (filtProd rs pid) dt))

/-- The calendar months (year, month) of the distinct dates of a record
list — used to compare the code's grouping key with the spec's. -/
def monthsOf (rs : List Record) : List (Nat × Nat) :=
  (rs.map (fun r => (r.data_ref.y, r.data_ref.m))).dedup

example :
    serie [⟨⟨2024, 1, 1⟩, "P", 3⟩, ⟨⟨2024, 1, 1⟩, "P", 4⟩, ⟨⟨2024, 2, 1⟩, "Q", 9⟩] "P"
      = [(⟨2024, 1, 1⟩, 7)] := by decide

example :
    serie [⟨⟨2024, 1, 5⟩, "P", 3⟩, ⟨⟨2024, 1, 20⟩, "P", 4⟩] "P"
      = [(⟨2024, 1, 5⟩, 3), (⟨2024, 1, 20⟩, 4)] := by decide

theorem serie_map_fst (rs : List Record) (pid : String) :
    (serie rs pid).map Prod.fst = sortedDates (filtProd rs pid) := by
  simp [serie, List.map_map, Function.comp_def]

theorem sortedDates_sorted (rs : List Record) : List.Pairwise dle (sortedDates rs) :=
  List.sorted_insertionSort dle _

theorem sortedDates_nodup (rs : List Record) : (sortedDates rs).Nodup :=
  (List.perm_insertionSort dle _).nodup_iff.mpr (List.nodup_dedup _)

theorem mem_sortedDates {dt : Date} {rs : List Record} :
    dt ∈ sortedDates rs ↔ ∃ r ∈ rs, r.data_ref = dt := by
  simp [sortedDates, (List.perm_insertionSort dle _).mem_iff, List.mem_dedup]

theorem mem_serie_fst {dt : Date} (rs : List Record) (pid : String) :
    dt ∈ (serie rs pid).map Prod.fst ↔ ∃ r ∈ filtProd rs pid, r.data_ref = dt := by
  rw [serie_map_fst]; exact mem_sortedDates

/-- C1 (amended): for every record sequence and product, `serie` has
exactly one entry per distinct `data_ref` value present in the filtered
records (not per distinct calendar month), with strictly increasing dates,
each value the exact sum of `quantidade` for that product at that date,
and dates with no records absent (never zero-filled). -/
theorem C1_serie_per_distinct_date (rs : List Record) (pid : String) :
    List.Pairwise dlt ((serie rs pid).map Prod.fst) ∧
    (∀ dt : Date, dt ∈ (serie rs pid).map Prod.fst ↔
      ∃ r ∈ filtProd rs pid, r.data_ref = dt) ∧
    (∀ p ∈ serie rs pid, p.2 = sumAt (filtProd rs pid) p.1) ∧
    (serie rs pid).length = ((filtProd rs pid).map Record.data_ref).dedup.length := by
  refine ⟨?_, fun dt => mem_serie_fst rs pid, ?_, ?_⟩
  · rw [serie_map_fst]
    exact ((sortedDates_sorted _).and (sortedDates_nodup _)).imp fun h => ⟨h.1, h.2⟩
  · intro p hp
    simp only [serie, List.mem_map] at hp
    obtain ⟨dt, -, rfl⟩ := hp
    rfl
  · simp [serie, sortedDates, (List.perm_insertionSort dle _).length_eq]

/-- Records of one product in one calendar month (January 2024) on two
different days: the code keeps them as two separate series entries. -/
def exC1 : List Record := [⟨⟨2024, 1, 5⟩, "P", 3⟩, ⟨⟨2024, 1, 20⟩, "P", 4⟩]

/-- C1 as stated is false on the code: `serie` groups by the exact
`data_ref` value, not by calendar month, so records of one month on two
days give two entries for a single distinct month. -/
theorem C1_counterexample :
    (monthsOf (filtProd exC1 "P")).length = 1 ∧
    (serie exC1 "P").length = 2 ∧
    ¬ (serie exC1 "P").length = (monthsOf (filtProd exC1 "P")).length := by decide

/-- The timestamps handed to the engine's fit step: `modelo.fit(serie)`
(app.py line 133) passes `serie` unchanged, so the fit input timestamps
are exactly the `ds` column of `serie`. -/
def fitTimestamps (rs : List Record) (pid : String) : List Date :=
  (serie rs pid).map Prod.fst

/-- C2 (amended): the fit step receives the grouped `data_ref` values
as-is; each fit timestamp is the first day of its calendar month exactly
when the uploaded records' dates are month-anchored (day = 1). -/
theorem C2_fit_timestamps (rs : List Record) (pid : String)
    (h : ∀ r ∈ rs, r.data_ref.d = 1) :
    ∀ dt ∈ fitTimestamps rs pid, dt.d = 1 ∧ dt = ⟨dt.y, dt.m, 1⟩ := by
  intro dt hdt
  obtain ⟨r, hr, rfl⟩ := (mem_serie_fst rs pid).mp hdt
  have hd : r.data_ref.d = 1 := h r (List.mem_of_mem_filter hr)
  exact ⟨hd, by rcases r with ⟨⟨ry, rm, rd⟩, rp, rq⟩; simp_all⟩

/-- Witness for C2: a month-anchored upload, where the hypothesis holds
and every fit timestamp is a month start. -/
theorem C2_fit_timestamps_witness :
    (∀ r ∈ [(⟨⟨2024, 1, 1⟩, "P", 3⟩ : Record), ⟨⟨2024, 2, 1⟩, "P", 5⟩], r.data_ref.d = 1) ∧
    ∀ dt ∈ fitTimestamps [(⟨⟨2024, 1, 1⟩, "P", 3⟩ : Record), ⟨⟨2024, 2, 1⟩, "P", 5⟩] "P",
      dt.d = 1 ∧ dt = ⟨dt.y, dt.m, 1⟩ :=
  ⟨by decide, C2_fit_timestamps _ "P" (by decide)⟩

/-- Three records of one product, the first on the 15th of its month. -/
def exC2 : List Record :=
  [⟨⟨2024, 1, 15⟩, "P", 3⟩, ⟨⟨2024, 2, 1⟩, "P", 5⟩, ⟨⟨2024, 3, 1⟩, "P", 2⟩]

/-- C2 as stated is false on the code: with a day-level date (2024-01-15)
in the upload, the fit step receives 2024-01-15 itself, not the first day
of its calendar month, even though the series is long enough to fit. -/
theorem C2_counterexample :
    fitTimestamps exC2 "P" = [⟨2024, 1, 15⟩, ⟨2024, 2, 1⟩, ⟨2024, 3, 1⟩] ∧
    (⟨2024, 1, 15⟩ : Date) ∈ fitTimestamps exC2 "P" ∧
    (Date.mk 2024 1 15).d ≠ 1 := by decide

/-- numpy/pandas `Series.round()` (app.py lines 146–148): round to the
nearest integer, ties to the even integer (banker's rounding), modelled
on exact rationals. -/
def roundHalfEven (q : ℚ) : ℤ :=
  if q - ⌊q⌋ < 1 / 2 then ⌊q⌋
  else if 1 / 2 < q - ⌊q⌋ then ⌊q⌋ + 1
  else if ⌊q⌋ % 2 = 0 then ⌊q⌋ else ⌊q⌋ + 1

/-- Modelled from the spec: "rounds each to the nearest integer using
standard round-half-away-from-zero" (§4.3) — the rounding mode the design
document claims, written from its words for comparison with the code's
`roundHalfEven`. -/
def roundHalfAway (q : ℚ) : ℤ :=
  if 0 ≤ q then ⌊q + 1 / 2⌋ else -⌊-q + 1 / 2⌋

example : roundHalfEven (25 / 2) = 12 := by norm_num [roundHalfEven]
example : roundHalfAway (25 / 2) = 13 := by norm_num [roundHalfAway]
example : roundHalfEven (31 / 2) = 16 := by norm_num [roundHalfEven]
example : roundHalfEven (-25 / 2) = -12 := by norm_num [roundHalfEven]
example : roundHalfAway (-25 / 2) = -13 := by norm_num [roundHalfAway]

/-- One row of the engine's raw prediction dataframe: `ds`, `yhat`,
`yhat_lower`, `yhat_upper`. -/
structure Pred where
  ds : Date
  yhat : ℚ
  yhat_lower : ℚ
  yhat_upper : ℚ
deriving DecidableEq

/-- One row of `previsao_futuro` after the three `.round().astype(int)`
assignments (app.py lines 146–148). -/
structure PredInt where
  ds : Date
  yhat : ℤ
  yhat_lower : ℤ
  yhat_upper : ℤ
deriving DecidableEq

/-- The three per-column roundings of app.py lines 146–148, applied to
one row: each field is rounded independently. -/
def roundRow (p : Pred) : PredInt :=
  ⟨p.ds, roundHalfEven p.yhat, roundHalfEven p.yhat_lower, roundHalfEven p.yhat_upper⟩

/-- Index of a date's calendar month on the month number line. -/
def monthIndex (dt : Date) : Nat := dt.y * 12 + (dt.m - 1)

/-- First day of the month with the given index. -/
def monthStart (i : Nat) : Date := ⟨i / 12, i % 12 + 1, 1⟩

theorem monthIndex_monthStart (i : Nat) : monthIndex (monthStart i) = i := by
  simp only [monthIndex, monthStart]
  omega

/-- Modelled from the spec: the engine's future-index generator
(`modelo.make_future_dataframe(periods=H, freq="MS")`, app.py lines
136–139; §6 contract) — the historical timestamps followed by the `H`
month starts strictly after the last historical timestamp, at monthly
granularity anchored to month-start. -/
def makeFutureDataframe (hist : List Date) (H : Nat) : List Date :=
  match hist.getLast? with
  | none => []
  | some last => hist ++ (List.range H).map (fun k => monthStart (monthIndex last + k + 1))

example :
    makeFutureDataframe [⟨2024, 1, 1⟩, ⟨2024, 2, 1⟩, ⟨2024, 3, 1⟩] 2
      = [⟨2024, 1, 1⟩, ⟨2024, 2, 1⟩, ⟨2024, 3, 1⟩, ⟨2024, 4, 1⟩, ⟨2024, 5, 1⟩] := by decide

example :
    makeFutureDataframe [⟨2024, 3, 15⟩] 1 = [⟨2024, 3, 15⟩, ⟨2024, 4, 1⟩] := by decide

/-- The external engine, modelled from the spec's §6 contract as a
capability: fitting a series yields a per-timestamp predictor, and the
predict step returns one `{yhat, yhat_lower, yhat_upper}` row per
requested timestamp, in request order. -/
def Engine : Type := List (Date × Int) → Date → ℚ × ℚ × ℚ

/-- Embedding of `previsao = modelo.predict(futuro)` (app.py line 140): the full
predicted range, one row per timestamp of the future dataframe. -/
def previsaoFull (engine : Engine) (s : List (Date × Int)) (H : Nat) : List Pred :=
  (makeFutureDataframe (s.map Prod.fst) H).map
    (fun dt => ⟨dt, (engine s dt).1, (engine s dt).2.1, (engine s dt).2.2⟩)

/-- Error kinds of the pipeline (§7 of the design document). -/
inductive PipeError
  | malformedInput
  | insufficientHistory
deriving DecidableEq

/-- The Forecast Adapter (app.py lines 125–148): refuse a series of fewer
than 3 observations with the `InsufficientHistory` advisory (`st.warning`,
line 126, modelled as a non-fatal error value); otherwise fit the engine,
predict over the future dataframe, take the last `H` rows positionally
(`previsao.tail(meses_prever)`, line 143), and round each of the three
value columns independently (lines 146–148). -/
def forecastPipeline (engine : Engine) (s : List (Date × Int)) (H : Nat) :
    Except PipeError (List PredInt) :=
  if s.length < 3 then .error .insufficientHistory
  else
    .ok ((((previsaoFull engine s H).drop ((previsaoFull engine s H).length - H)).map roundRow))

/-- A three-month, month-anchored series used as concrete input. -/
def s0 : List (Date × Int) := [(⟨2024, 1, 1⟩, 10), (⟨2024, 2, 1⟩, 12), (⟨2024, 3, 1⟩, 9)]

/-- A concrete engine returning a fixed raw triple for every timestamp. -/
def constEngine (a b c : ℚ) : Engine := fun _ _ => (a, b, c)

example :
    forecastPipeline (constEngine 1 0 2) s0 2
      = .ok [⟨⟨2024, 4, 1⟩, 1, 0, 2⟩, ⟨⟨2024, 5, 1⟩, 1, 0, 2⟩] := by
  norm_num [forecastPipeline, previsaoFull, makeFutureDataframe, monthIndex, monthStart,
    s0, constEngine, roundRow, roundHalfEven, List.range_succ]

example :
    forecastPipeline (constEngine 1 0 2) [(⟨2024, 1, 1⟩, 10)] 2
      = .error .insufficientHistory := by
  norm_num [forecastPipeline]

/-- Month index of the last observed period of a series. -/
def lastMonthIdx (s : List (Date × Int)) : Nat :=
  match (s.map Prod.fst).getLast? with
  | none => 0
  | some dt => monthIndex dt

theorem pipeline_ok_spec (e : Engine) (s : List (Date × Int)) (H : Nat)
    (h3 : 3 ≤ s.length) :
    ∃ out, forecastPipeline e s H = .ok out ∧
      out = ((previsaoFull e s H).drop ((previsaoFull e s H).length - H)).map roundRow ∧
      out.length = H ∧
      out.map PredInt.ds = (List.range H).map (fun k => monthStart (lastMonthIdx s + k + 1)) := by
  cases hlast : (s.map Prod.fst).getLast? with
  | none =>
    rw [List.getLast?_eq_none_iff, List.map_eq_nil_iff] at hlast
    subst hlast; simp at h3
  | some last =>
    have hfut : makeFutureDataframe (s.map Prod.fst) H
        = s.map Prod.fst ++ (List.range H).map (fun k => monthStart (monthIndex last + k + 1)) := by
      rw [makeFutureDataframe, hlast]
    have hlmi : lastMonthIdx s = monthIndex last := by rw [lastMonthIdx, hlast]
    have hfull : previsaoFull e s H
        = (s.map Prod.fst).map (fun dt =>
            (⟨dt, (e s dt).1, (e s dt).2.1, (e s dt).2.2⟩ : Pred))
          ++ ((List.range H).map (fun k => monthStart (monthIndex last + k + 1))).map
            (fun dt => (⟨dt, (e s dt).1, (e s dt).2.1, (e s dt).2.2⟩ : Pred)) := by
      rw [previsaoFull, hfut, List.map_append]
    have hlen : (previsaoFull e s H).length = s.length + H := by
      rw [hfull]; simp
    have hdrop : (previsaoFull e s H).drop ((previsaoFull e s H).length - H)
        = ((List.range H).map (fun k => monthStart (monthIndex last + k + 1))).map
            (fun dt => (⟨dt, (e s dt).1, (e s dt).2.1, (e s dt).2.2⟩ : Pred)) := by
      rw [hlen, hfull]
      have : s.length + H - H
          = ((s.map Prod.fst).map (fun dt =>
              (⟨dt, (e s dt).1, (e s dt).2.1, (e s dt).2.2⟩ : Pred))).length := by
        simp
      rw [this, List.drop_left]
    refine ⟨((previsaoFull e s H).drop ((previsaoFull e s H).length - H)).map roundRow,
      ?_, rfl, ?_, ?_⟩
    · rw [forecastPipeline, if_neg (by omega)]
    · rw [hdrop]; simp
    · rw [hdrop, hlmi]
      simp [List.map_map, Function.comp_def, roundRow]

/-- C3: for every valid horizon `H` in [1, 12] and every series with at
least 3 observations, the pipeline succeeds and its future slice has
exactly `H` entries, strictly increasing in period, the `k`-th future
period the month-start `k + 1` months after the last observed period, the
slice taken positionally as the last `H` rows of the full predicted
range. -/
theorem C3_future_slice (e : Engine) (s : List (Date × Int)) (H : Nat)
    (h1 : 1 ≤ H) (h2 : H ≤ 12) (h3 : 3 ≤ s.length) :
    ∃ out, forecastPipeline e s H = .ok out ∧
      out.length = H ∧
      (∀ k (hk : k < out.length), (out.get ⟨k, hk⟩).ds = monthStart (lastMonthIdx s + k + 1)) ∧
      List.Pairwise (fun a b : PredInt => monthIndex a.ds < monthIndex b.ds) out ∧
      forecastPipeline e s H =
        .ok (((previsaoFull e s H).drop ((previsaoFull e s H).length - H)).map roundRow) := by
  obtain ⟨out, hok, hdef, hlen, hds⟩ := pipeline_ok_spec e s H h3
  refine ⟨out, hok, hlen, ?_, ?_, ?_⟩
  · intro k hk
    have := congrArg (fun l => l.get? k) hds
    simp only [List.get?_eq_getElem?, List.getElem?_map] at this
    rw [List.getElem?_eq_getElem hk, List.getElem?_range (by omega : k < H)] at this
    simpa [List.get_eq_getElem] using this
  · have hp : List.Pairwise (fun a b : Date => monthIndex a < monthIndex b)
        ((List.range H).map (fun k => monthStart (lastMonthIdx s + k + 1))) := by
      refine (List.pairwise_lt_range H).map _ ?_
      intro a b hab
      simp only [monthIndex_monthStart]
      omega
    rw [← hds] at hp
    exact (List.pairwise_map (f := PredInt.ds)
      (R := fun a b : Date => monthIndex a < monthIndex b)).mp hp
  · rw [hok, hdef]

/-- Witness for C3 at a concrete engine, series and horizon. -/
theorem C3_future_slice_witness :
    1 ≤ 2 ∧ 2 ≤ 12 ∧ 3 ≤ s0.length ∧
    (∃ out, forecastPipeline (constEngine 1 0 2) s0 2 = .ok out ∧
      out.length = 2 ∧
      (∀ k (hk : k < out.length),
        (out.get ⟨k, hk⟩).ds = monthStart (lastMonthIdx s0 + k + 1)) ∧
      List.Pairwise (fun a b : PredInt => monthIndex a.ds < monthIndex b.ds) out ∧
      forecastPipeline (constEngine 1 0 2) s0 2 =
        .ok (((previsaoFull (constEngine 1 0 2) s0 2).drop
          ((previsaoFull (constEngine 1 0 2) s0 2).length - 2)).map roundRow)) :=
  ⟨by decide, by decide, by decide,
    C3_future_slice (constEngine 1 0 2) s0 2 (by decide) (by decide) (by decide)⟩

/-- C4: a series with fewer than 3 observed periods makes the pipeline
fail with the `InsufficientHistory` advisory, with a result independent
of the engine (no fit or predict invocation) and no partial `.ok`
result. -/
theorem C4_insufficient_history (e e2 : Engine) (s : List (Date × Int)) (H : Nat)
    (h : s.length < 3) :
    forecastPipeline e s H = .error .insufficientHistory ∧
    forecastPipeline e s H = forecastPipeline e2 s H ∧
    ∀ out, forecastPipeline e s H ≠ .ok out := by
  have h1 : ∀ e' : Engine, forecastPipeline e' s H = .error .insufficientHistory := by
    intro e'
    rw [forecastPipeline, if_pos h]
  exact ⟨h1 e, (h1 e).trans (h1 e2).symm, fun out hout => by rw [h1 e] at hout; cases hout⟩

/-- A two-observation series, below the 3-observation threshold. -/
def sShort : List (Date × Int) := [(⟨2024, 1, 1⟩, 10), (⟨2024, 2, 1⟩, 12)]

/-- Witness for C4: a two-observation series under two different engines. -/
theorem C4_insufficient_history_witness :
    sShort.length < 3 ∧
    (forecastPipeline (constEngine 1 0 2) sShort 3 = .error .insufficientHistory ∧
    forecastPipeline (constEngine 1 0 2) sShort 3
      = forecastPipeline (constEngine 7 7 7) sShort 3 ∧
    ∀ out, forecastPipeline (constEngine 1 0 2) sShort 3 ≠ .ok out) :=
  ⟨by decide,
    C4_insufficient_history (constEngine 1 0 2) (constEngine 7 7 7) sShort 3 (by decide)⟩

/-- C5 as stated is false on the code in two ways, both at the raw engine
output 12.5 for every period of a 3-month series with horizon 1.  Mode:
the code's rounding (`Series.round()`, half-to-even) yields 12 for every
field of the one future row, while the claimed round-half-away-from-zero
yields 13.  Scope: the claim says every period of the full predicted
range, in-sample alike, is rounded, but the code takes
`previsao.tail(meses_prever)` (line 143) before rounding (lines 146–148),
so the three in-sample rows of `previsao` — the data the chart consumes
(lines 185–218) — still carry the raw non-integer 25/2, a value different
from its own floor, hence rounded nowhere. -/
theorem C5_counterexample :
    forecastPipeline (constEngine (25 / 2) (25 / 2) (25 / 2)) s0 1
      = .ok [⟨⟨2024, 4, 1⟩, 12, 12, 12⟩] ∧
    roundHalfAway (25 / 2) = 13 ∧ (12 : ℤ) ≠ 13 ∧
    (previsaoFull (constEngine (25 / 2) (25 / 2) (25 / 2)) s0 1).take 3
      = [⟨⟨2024, 1, 1⟩, 25 / 2, 25 / 2, 25 / 2⟩,
         ⟨⟨2024, 2, 1⟩, 25 / 2, 25 / 2, 25 / 2⟩,
         ⟨⟨2024, 3, 1⟩, 25 / 2, 25 / 2, 25 / 2⟩] ∧
    (⌊(25 : ℚ) / 2⌋ : ℚ) ≠ 25 / 2 := by
  refine ⟨?_, by norm_num [roundHalfAway], by decide, ?_, by norm_num⟩
  · norm_num [forecastPipeline, previsaoFull, makeFutureDataframe, monthIndex, monthStart,
      s0, constEngine, roundRow, roundHalfEven, List.range_succ]
  · norm_num [previsaoFull, makeFutureDataframe, monthIndex, monthStart,
      s0, constEngine, List.range_succ]

/-- C5 (amended): the Adapter rounds only the trailing `H` future rows
of the predicted range — the tail slice of line 143 is taken before the
rounding of lines 146–148, and the full-range `previsao`, which the chart
consumes, keeps the raw engine values at every period, in-sample ones
included; for each rounded row, each of the three fields is rounded to
the nearest integer independently of the other two, with ties going to
the even integer (numpy/pandas banker's rounding), not
half-away-from-zero. -/
theorem C5_rounding (e : Engine) (s : List (Date × Int)) (H : Nat) (p p' : Pred) (q : ℚ)
    (h3 : 3 ≤ s.length) :
    forecastPipeline e s H
      = .ok (((previsaoFull e s H).drop ((previsaoFull e s H).length - H)).map roundRow) ∧
    (∀ r ∈ previsaoFull e s H,
      r.yhat = (e s r.ds).1 ∧ r.yhat_lower = (e s r.ds).2.1 ∧
        r.yhat_upper = (e s r.ds).2.2) ∧
    (roundRow p).yhat = roundHalfEven p.yhat ∧
    (roundRow p).yhat_lower = roundHalfEven p.yhat_lower ∧
    (roundRow p).yhat_upper = roundHalfEven p.yhat_upper ∧
    (p.yhat_lower = p'.yhat_lower →
      (roundRow p).yhat_lower = (roundRow p').yhat_lower) ∧
    (p.yhat_upper = p'.yhat_upper →
      (roundRow p).yhat_upper = (roundRow p').yhat_upper) ∧
    |q - (roundHalfEven q : ℚ)| ≤ 1 / 2 ∧
    (q - ⌊q⌋ = 1 / 2 → roundHalfEven q % 2 = 0) := by
  have hfl : (⌊q⌋ : ℚ) ≤ q := Int.floor_le q
  have hfu : q < ⌊q⌋ + 1 := Int.lt_floor_add_one q
  refine ⟨?_, ?_, rfl, rfl, rfl,
    fun h => by simp [roundRow, h], fun h => by simp [roundRow, h], ?_, ?_⟩
  · obtain ⟨out, hok, hdef, -, -⟩ := pipeline_ok_spec e s H h3
    rw [hok, hdef]
  · intro r hr
    simp only [previsaoFull, List.mem_map] at hr
    obtain ⟨dt, -, rfl⟩ := hr
    exact ⟨rfl, rfl, rfl⟩
  · rw [roundHalfEven]
    split_ifs with h1 h2 h3
    · rw [abs_of_nonneg (by linarith)]; linarith
    · push_cast
      rw [abs_of_nonpos (by linarith)]; linarith
    · rw [abs_of_nonneg (by linarith)]; linarith
    · push_cast
      rw [abs_of_nonpos (by linarith)]; linarith
  · intro htie
    rw [roundHalfEven, if_neg (by rw [htie]; exact lt_irrefl _),
      if_neg (by rw [htie]; exact lt_irrefl _)]
    split_ifs with he
    · exact he
    · omega

/-- Witness for C5 at a concrete engine, series and horizon, and at the
tie 5/2: the pipeline rounds exactly the tail slice, and the rounded
value is within half a unit and even. -/
theorem C5_rounding_witness :
    3 ≤ s0.length ∧
    forecastPipeline (constEngine 1 0 2) s0 1
      = .ok (((previsaoFull (constEngine 1 0 2) s0 1).drop
          ((previsaoFull (constEngine 1 0 2) s0 1).length - 1)).map roundRow) ∧
    |(5 : ℚ) / 2 - (roundHalfEven (5 / 2) : ℚ)| ≤ 1 / 2 ∧
    roundHalfEven ((5 : ℚ) / 2) % 2 = 0 :=
  ⟨by decide,
   (C5_rounding (constEngine 1 0 2) s0 1
     ⟨⟨2024, 4, 1⟩, 0, 0, 0⟩ ⟨⟨2024, 4, 1⟩, 0, 0, 0⟩ (5 / 2) (by decide)).1,
   (C5_rounding (constEngine 1 0 2) s0 1
     ⟨⟨2024, 4, 1⟩, 0, 0, 0⟩ ⟨⟨2024, 4, 1⟩, 0, 0, 0⟩ (5 / 2) (by decide)).2.2.2.2.2.2.2.1,
   (C5_rounding (constEngine 1 0 2) s0 1
     ⟨⟨2024, 4, 1⟩, 0, 0, 0⟩ ⟨⟨2024, 4, 1⟩, 0, 0, 0⟩ (5 / 2) (by decide)).2.2.2.2.2.2.2.2
     (by norm_num)⟩

/-- C9: with fixed raw engine outputs (12.4, 9.6, 15.5) for point
estimate, lower bound and upper bound of the one future period, the
rounded Forecast Result entry is exactly (12, 10, 16). -/
theorem C9_rounding_example :
    forecastPipeline (constEngine (62 / 5) (48 / 5) (31 / 2)) s0 1
      = .ok [⟨⟨2024, 4, 1⟩, 12, 10, 16⟩] := by
  norm_num [forecastPipeline, previsaoFull, makeFutureDataframe, monthIndex, monthStart,
    s0, constEngine, roundRow, roundHalfEven, List.range_succ]

/-- Zero-padded two-digit rendering of a month or day number, as
`strftime` does. -/
def pad2 (n : Nat) : String := if n < 10 then "0" ++ toString n else toString n

/-- Zero-padded four-digit rendering of a year number, as `strftime`'s
`%Y` does. -/
def pad4 (n : Nat) : String :=
  if n < 10 then "000" ++ toString n
  else if n < 100 then "00" ++ toString n
  else if n < 1000 then "0" ++ toString n
  else toString n

/-- Embedding of `strftime("%Y-%m-%d")` (app.py line 152). -/
def fmtYMD (dt : Date) : String := pad4 dt.y ++ "-" ++ pad2 dt.m ++ "-" ++ pad2 dt.d

/-- Embedding of `strftime("%m/%Y")` (app.py line 165). -/
def fmtMY (dt : Date) : String := pad2 dt.m ++ "/" ++ pad4 dt.y

/-- One row of `tabela_prev` (app.py lines 151–156): formatted date,
point estimate, lower bound, upper bound. -/
structure TabelaRow where
  data : String
  previsao : Int
  limiteInferior : Int
  limiteSuperior : Int
deriving DecidableEq

/-- Embedding of `tabela_prev` (app.py lines 151–156): the detailed table, one row per
row of `previsao_futuro`, values taken unchanged. -/
def tabela_prev (out : List PredInt) : List TabelaRow :=
  out.map (fun p => ⟨fmtYMD p.ds, p.yhat, p.yhat_lower, p.yhat_upper⟩)

/-- Embedding of `tabela_resumida` (app.py lines 163–165): date re-rendered as
`MM/YYYY` (the code round-trips the `YYYY-MM-DD` string through
`pd.to_datetime` and `strftime("%m/%Y")`), point estimate only. -/
def tabela_resumida (out : List PredInt) : List (String × Int) :=
  out.map (fun p => (fmtMY p.ds, p.yhat))

/-- The header `to_csv` writes for `tabela_prev`'s four columns. -/
def csvHeader : String := "Data,Previsão (unidades),Limite inferior,Limite superior"

/-- One serialized CSV data row. -/
def csvRow (r : TabelaRow) : String :=
  r.data ++ "," ++ toString r.previsao ++ "," ++ toString r.limiteInferior
    ++ "," ++ toString r.limiteSuperior

/-- The lines of `tabela_prev.to_csv(index=False)`: header first, then
one line per table row. -/
def csvLines (t : List TabelaRow) : List String := csvHeader :: t.map csvRow

/-- Embedding of `tabela_prev.to_csv(index=False)` (app.py line 171), modelled as the
newline-joined lines with a trailing newline. -/
def csv_prev (t : List TabelaRow) : String :=
  String.intercalate "\n" (csvLines t) ++ "\n"

/-- Embedding of `.encode("utf-8")` (app.py line 171). -/
def csv_prev_bytes (t : List TabelaRow) : ByteArray := (csv_prev t).toUTF8

/-- Embedding of the download file name `"previsao_" + produto_selecionado + ".csv"` (app.py line 175). -/
def file_name (pid : String) : String := "previsao_" ++ pid ++ ".csv"

/-- C6: the code performs no bound-inversion detection — an engine output
whose rounded lower bound (5) exceeds its rounded upper bound (3) flows
through the pipeline, the detailed table and the CSV export unchanged,
with no error surfaced anywhere. -/
theorem C6_bound_inversion_not_detected :
    forecastPipeline (constEngine 4 5 3) s0 1 = .ok [⟨⟨2024, 4, 1⟩, 4, 5, 3⟩] ∧
    tabela_prev [⟨⟨2024, 4, 1⟩, 4, 5, 3⟩] = [⟨"2024-04-01", 4, 5, 3⟩] ∧
    csvLines (tabela_prev [⟨⟨2024, 4, 1⟩, 4, 5, 3⟩]) = [csvHeader, "2024-04-01,4,5,3"] ∧
    (5 : ℤ) > 3 := by
  refine ⟨?_, by decide, by decide, by decide⟩
  norm_num [forecastPipeline, previsaoFull, makeFutureDataframe, monthIndex, monthStart,
    s0, constEngine, roundRow, roundHalfEven, List.range_succ]

/-- C8: every completed run exports a flat delimited table headed by
`Data,Previsão (unidades),Limite inferior,Limite superior`, with exactly
one data row per future period, each row carrying a future period's
formatted date and three values, the bytes being the UTF-8 encoding of
the delimited text, and the file name derived from the product id. -/
theorem C8_export_shape (e : Engine) (s : List (Date × Int)) (H : Nat) (pid : String)
    (h1 : 1 ≤ H) (h2 : H ≤ 12) (h3 : 3 ≤ s.length) :
    ∃ out, forecastPipeline e s H = .ok out ∧
      (csvLines (tabela_prev out)).head? = some csvHeader ∧
      (csvLines (tabela_prev out)).length = H + 1 ∧
      (tabela_prev out).length = H ∧
      (∀ r ∈ tabela_prev out, ∃ p ∈ out,
        r = ⟨fmtYMD p.ds, p.yhat, p.yhat_lower, p.yhat_upper⟩) ∧
      csv_prev_bytes (tabela_prev out) = (csv_prev (tabela_prev out)).toUTF8 ∧
      file_name pid = "previsao_" ++ pid ++ ".csv" := by
  obtain ⟨out, hok, hdef, hlen, hds⟩ := pipeline_ok_spec e s H h3
  refine ⟨out, hok, rfl, ?_, ?_, ?_, rfl, rfl⟩
  · simp [csvLines, tabela_prev, hlen]
  · simp [tabela_prev, hlen]
  · intro r hr
    simp only [tabela_prev, List.mem_map] at hr
    obtain ⟨p, hp, rfl⟩ := hr
    exact ⟨p, hp, rfl⟩

/-- Witness for C8 at a concrete engine, series, horizon and product. -/
theorem C8_export_shape_witness :
    1 ≤ 2 ∧ 2 ≤ 12 ∧ 3 ≤ s0.length ∧
    (∃ out, forecastPipeline (constEngine 1 0 2) s0 2 = .ok out ∧
      (csvLines (tabela_prev out)).head? = some csvHeader ∧
      (csvLines (tabela_prev out)).length = 2 + 1 ∧
      (tabela_prev out).length = 2 ∧
      (∀ r ∈ tabela_prev out, ∃ p ∈ out,
        r = ⟨fmtYMD p.ds, p.yhat, p.yhat_lower, p.yhat_upper⟩) ∧
      csv_prev_bytes (tabela_prev out) = (csv_prev (tabela_prev out)).toUTF8 ∧
      file_name "Croissant" = "previsao_" ++ "Croissant" ++ ".csv") :=
  ⟨by decide, by decide, by decide,
    C8_export_shape (constEngine 1 0 2) s0 2 "Croissant" (by decide) (by decide) (by decide)⟩

/-- C10: the rounded predictions pass to the detailed table, the summary
table and the CSV rows without clamping — the value columns are exactly
the rounded engine outputs, and a negative rounded point estimate or
lower bound appears as that negative integer: an engine returning raw
(-7.3, -9.7, 2.3) yields the table row (-7, -10, 2), the CSV data row
`2024-04-01,-7,-10,2` and the summary entry (`04/2024`, -7), with no
flooring at zero. -/
theorem C10_no_clamping (out : List PredInt) :
    (tabela_prev out).map TabelaRow.previsao = out.map PredInt.yhat ∧
    (tabela_prev out).map TabelaRow.limiteInferior = out.map PredInt.yhat_lower ∧
    (tabela_prev out).map TabelaRow.limiteSuperior = out.map PredInt.yhat_upper ∧
    (tabela_resumida out).map Prod.snd = out.map PredInt.yhat ∧
    forecastPipeline (constEngine (-73 / 10) (-97 / 10) (23 / 10)) s0 1
      = .ok [⟨⟨2024, 4, 1⟩, -7, -10, 2⟩] ∧
    tabela_prev [⟨⟨2024, 4, 1⟩, -7, -10, 2⟩] = [⟨"2024-04-01", -7, -10, 2⟩] ∧
    csvRow ⟨"2024-04-01", -7, -10, 2⟩ = "2024-04-01,-7,-10,2" ∧
    tabela_resumida [⟨⟨2024, 4, 1⟩, -7, -10, 2⟩] = [("04/2024", -7)] := by
  refine ⟨?_, ?_, ?_, ?_, ?_, by decide, by decide, by decide⟩
  · simp [tabela_prev, List.map_map, Function.comp_def]
  · simp [tabela_prev, List.map_map, Function.comp_def]
  · simp [tabela_prev, List.map_map, Function.comp_def]
  · simp [tabela_resumida, List.map_map, Function.comp_def]
  · norm_num [forecastPipeline, previsaoFull, makeFutureDataframe, monthIndex, monthStart,
      s0, constEngine, roundRow, roundHalfEven, List.range_succ]

/-- The raw uploaded table as `pd.read_csv` sees it: a list of column
names and one list of cell strings per row. -/
structure RawTable where
  columns : List String
  rows : List (List String)

/-- The cell of a row under a named column, if the column exists. -/
def colCell (cols : List String) (row : List String) (c : String) : Option String :=
  (cols.findIdx? (· == c)).bind (fun j => row[j]?)

/-- Parse one row into a typed record: the `data_ref` cell must parse to
a date (`pd.to_datetime`, app.py line 68, `errors="raise"` semantics);
`produto` is kept as the raw string and `quantidade` read by the numeric
parser `read_csv` applies to the quantity column. -/
def parseRow (parseDate : String → Option Date) (parseQty : String → Int)
    (cols : List String) (row : List String) : Except PipeError Record :=
  match (colCell cols row "data_ref").bind parseDate with
  | none => .error .malformedInput
  | some dt =>
    .ok ⟨dt, (colCell cols row "produto").getD "",
      parseQty ((colCell cols row "quantidade").getD "")⟩

/-- All-or-nothing row conversion: the first row whose date fails to
parse aborts the whole load, as the vectorized `pd.to_datetime` call
does. -/
def normalizeRows (f : List String → Except PipeError Record) :
    List (List String) → Except PipeError (List Record)
  | [] => .ok []
  | r :: rs =>
    match f r with
    | .error err => .error err
    | .ok x =>
      match normalizeRows f rs with
      | .error err => .error err
      | .ok xs => .ok (x :: xs)

/-- The Record Normalizer (app.py lines 65–68, with the required-column
accesses of lines 68, 81 and 104 that each abort the load when the
column is absent): require the `data_ref`, `produto` and `quantidade`
columns, then parse every row's date, wholesale. -/
def normalize (parseDate : String → Option Date) (parseQty : String → Int)
    (t : RawTable) : Except PipeError (List Record) :=
  if "data_ref" ∈ t.columns ∧ "produto" ∈ t.columns ∧ "quantidade" ∈ t.columns then
    normalizeRows (parseRow parseDate parseQty t.columns) t.rows
  else .error .malformedInput

theorem normalizeRows_spec (f : List String → Except PipeError Record)
    (hf : ∀ r err, f r = .error err → err = .malformedInput) :
    ∀ rows, (∃ recs, normalizeRows f rows = .ok recs ∧ recs.length = rows.length) ∨
      normalizeRows f rows = .error .malformedInput
  | [] => .inl ⟨[], rfl, rfl⟩
  | r :: rs => by
    cases hfr : f r with
    | error err =>
      right
      rw [normalizeRows, hfr, hf r err hfr]
    | ok x =>
      cases normalizeRows_spec f hf rs with
      | inl h =>
        obtain ⟨recs, hok, hlen⟩ := h
        exact .inl ⟨x :: recs, by rw [normalizeRows, hfr, hok], by simp [hlen]⟩
      | inr h =>
        right
        rw [normalizeRows, hfr, h]

/-- C7: for every raw input table, the Record Normalizer either produces
exactly one typed record per input row (no row silently dropped) or
fails wholesale with `MalformedInput` — for any date parser and any
numeric reading of the quantity column. -/
theorem C7_normalizer_wholesale (parseDate : String → Option Date)
    (parseQty : String → Int) (t : RawTable) :
    (∃ recs, normalize parseDate parseQty t = .ok recs ∧
      recs.length = t.rows.length) ∨
    normalize parseDate parseQty t = .error .malformedInput := by
  by_cases hcols :
      "data_ref" ∈ t.columns ∧ "produto" ∈ t.columns ∧ "quantidade" ∈ t.columns
  · have hf : ∀ r err, parseRow parseDate parseQty t.columns r = .error err →
        err = .malformedInput := by
      intro r err h
      unfold parseRow at h
      split at h
      · exact (Except.error.inj h).symm
      · exact Except.noConfusion h
    rw [normalize, if_pos hcols]
    exact normalizeRows_spec _ hf t.rows
  · right
    rw [normalize, if_neg hcols]

example :
    normalize (fun st => if st == "2024-01-01" then some ⟨2024, 1, 1⟩ else none)
      (fun _ => 5)
      ⟨["data_ref", "produto", "quantidade"], [["2024-01-01", "P", "5"]]⟩
      = .ok [⟨⟨2024, 1, 1⟩, "P", 5⟩] := by rfl

example :
    normalize (fun st => if st == "2024-01-01" then some ⟨2024, 1, 1⟩ else none)
      (fun _ => 5)
      ⟨["data_ref", "produto", "quantidade"], [["2024-01-01", "P", "5"], ["bad", "P", "5"]]⟩
      = .error .malformedInput := by rfl

example :
    normalize (fun st => if st == "2024-01-01" then some ⟨2024, 1, 1⟩ else none)
      (fun _ => 5)
      ⟨["produto", "quantidade"], [["P", "5"]]⟩
      = .error .malformedInput := by rfl

end MiniApp
